import Mathlib

/-!
Verification of the boss-platform procedural mesh generators
(`src/blender_scripts/boss_platform*.py`).

The scripts drive Blender through `bpy` calls.  The Blender host
(primitive creation, boolean modifiers, scene graph) and the Python
`math` module are external collaborators; here the math library is
abstracted as a `Trig` record of uninterpreted functions so that every
generator is a computable function over an arbitrary linear ordered
field.  Theorems about concrete real geometry instantiate the record
with the actual real functions (`Real.cos`, `Real.sin`, `Real.sqrt`).
Randomness (`random.seed(42)` followed by `random.uniform` draws) is
modelled by an explicit stream of unit-interval draws determined by the
seed, mirroring the deterministic Mersenne-Twister stream.
-/

namespace BossPlatform

/-- Abstraction of the host math library (`math.cos`, `math.sin`,
`math.sqrt`, `math.atan2`, `math.pi`) used by the scripts. -/
structure Trig (α : Type) where
  cos : α → α
  sin : α → α
  sqrt : α → α
  atan2 : α → α → α
  pi : α

variable {α : Type} [LinearOrderedField α]

/-- Python `random.uniform a b` applied to a unit draw `v`:
`a + (b - a) * v`. -/
def uniform (a b v : α) : α := a + (b - a) * v

/-- Kinds of Blender primitives requested by the scripts. -/
inductive PrimKind where
  | cylinder
  | cone
  | icoSphere
  | uvSphere
  | torus
  deriving DecidableEq, Repr

/-- Semantic tag of a generated object, mirroring the `obj.name`
assignments in the scripts (`"Floor"`, `"Ritual_Ring_…"`, `"Pillar_…"`,
`"Altar_…"`, `"Spike_…"`, `"Skull_…"`, `"Horn_…"`). -/
inductive ObjTag where
  | floor
  | ring
  | pillarPart
  | altarPart
  | spike
  | skull
  | horn
  deriving DecidableEq, Repr

/-- One generated scene object: the primitive request plus the pose
data set by the script.  `segU`/`segV` hold vertex/segment counts,
`r1`/`r2` the (major/minor or bottom/top) radii, `depth` the prism
height.  Bevel modifiers and smooth shading are host-side operations
with no bearing on the claims and are not recorded. -/
structure Obj (α : Type) where
  tag : ObjTag
  kind : PrimKind
  segU : ℕ
  segV : ℕ
  r1 : α
  r2 : α
  depth : α
  location : α × α × α
  rotation : α × α × α
  scale : α × α × α
  deriving DecidableEq

/-- The numeric configuration of one generation run (spec §3
ParameterSet).  In `boss_platform_v5.py` these are the module-level
constants plus the literal arguments of the build section. -/
structure ParameterSet (α : Type) where
  platformRadius : α
  platformHeight : α
  ringSpecs : List (α × α)
  pillarHeight : α
  pillarRadius : α
  pillarCount : ℕ
  skullCount : ℕ
  seed : ℕ
  deriving DecidableEq

/-- The canonical V5 parameter set: `PLATFORM_RADIUS = 7.0`,
`PLATFORM_HEIGHT = 0.5`, ring radii/thicknesses `5.5/0.1`, `3.5/0.08`,
`1.8/0.06`, `PILLAR_HEIGHT = 3.0`, `PILLAR_RADIUS = 0.35`, six pillars,
eight skulls, `random.seed(42)`. -/
def canonicalParams : ParameterSet α :=
  { platformRadius := 7
    platformHeight := 1/2
    ringSpecs := [(11/2, 1/10), (7/2, 2/25), (9/5, 3/50)]
    pillarHeight := 3
    pillarRadius := 7/20
    pillarCount := 6
    skullCount := 8
    seed := 42 }

/-! ### V5 builders (`boss_platform_v5.py`) -/

/-- `create_floor`: hexagonal cylinder of the platform radius, top at
`z = 0`, rotated by `π/6`. -/
def create_floor (g : Trig α) (p : ParameterSet α) : Obj α :=
  { tag := .floor, kind := .cylinder, segU := 6, segV := 0
    r1 := p.platformRadius, r2 := 0, depth := p.platformHeight
    location := (0, 0, -p.platformHeight / 2)
    rotation := (0, 0, g.pi / 6), scale := (1, 1, 1) }

/-- `create_ritual_ring`: torus of major radius `radius` and minor
radius `thickness` at `z = 0.02`. -/
def create_ritual_ring (radius thickness : α) : Obj α :=
  { tag := .ring, kind := .torus, segU := 48, segV := 12
    r1 := radius, r2 := thickness, depth := 0
    location := (0, 0, 1/50)
    rotation := (0, 0, 0), scale := (1, 1, 1) }

/-- Pillar anchor point `i` of the V5 build section: angle `i * π/3`
(zero angular offset), distance `r` from the origin. -/
def pillarAnchor (g : Trig α) (r : α) (i : ℕ) : α × α :=
  (r * g.cos ((i : α) * (g.pi / 3)), r * g.sin ((i : α) * (g.pi / 3)))

/-- `create_pillar`: the six stacked sub-meshes of one pillar composite
(tapered shaft, wide base, cap, brazier cone, fire sphere, floating
crystal).  The bmesh taper applied to the shaft's vertex buffer is
modelled separately by `taperVerts`. -/
def create_pillar (p : ParameterSet α) (x y : α) : List (Obj α) :=
  [ { tag := .pillarPart, kind := .cylinder, segU := 12, segV := 0
      r1 := p.pillarRadius, r2 := 0, depth := p.pillarHeight
      location := (x, y, p.pillarHeight / 2)
      rotation := (0, 0, 0), scale := (1, 1, 1) },
    { tag := .pillarPart, kind := .cylinder, segU := 12, segV := 0
      r1 := p.pillarRadius * (3/2), r2 := 0, depth := 1/5
      location := (x, y, 1/10)
      rotation := (0, 0, 0), scale := (1, 1, 1) },
    { tag := .pillarPart, kind := .cylinder, segU := 12, segV := 0
      r1 := p.pillarRadius * (6/5), r2 := 0, depth := 3/25
      location := (x, y, p.pillarHeight - 3/50)
      rotation := (0, 0, 0), scale := (1, 1, 1) },
    { tag := .pillarPart, kind := .cone, segU := 12, segV := 0
      r1 := 3/10, r2 := 1/5, depth := 1/5
      location := (x, y, p.pillarHeight + 1/10)
      rotation := (0, 0, 0), scale := (1, 1, 1) },
    { tag := .pillarPart, kind := .uvSphere, segU := 12, segV := 8
      r1 := 3/20, r2 := 0, depth := 0
      location := (x, y, p.pillarHeight + 1/4)
      rotation := (0, 0, 0), scale := (1, 1, 1) },
    { tag := .pillarPart, kind := .icoSphere, segU := 2, segV := 0
      r1 := 3/25, r2 := 0, depth := 0
      location := (x, y, p.pillarHeight + 11/20)
      rotation := (0, 0, 0), scale := (7/10, 7/10, 7/5) } ]

/-- `create_altar`: the five altar sub-meshes (three hexagonal tiers,
fire pillar, soul orb). -/
def create_altar (g : Trig α) : List (Obj α) :=
  [ { tag := .altarPart, kind := .cylinder, segU := 6, segV := 0
      r1 := 6/5, r2 := 0, depth := 1/4
      location := (0, 0, 1/8)
      rotation := (0, 0, g.pi / 6), scale := (1, 1, 1) },
    { tag := .altarPart, kind := .cylinder, segU := 6, segV := 0
      r1 := 4/5, r2 := 0, depth := 1/5
      location := (0, 0, 7/20)
      rotation := (0, 0, g.pi / 6), scale := (1, 1, 1) },
    { tag := .altarPart, kind := .cylinder, segU := 6, segV := 0
      r1 := 1/2, r2 := 0, depth := 1/10
      location := (0, 0, 1/2)
      rotation := (0, 0, g.pi / 6), scale := (1, 1, 1) },
    { tag := .altarPart, kind := .cylinder, segU := 16, segV := 0
      r1 := 3/25, r2 := 0, depth := 6/5
      location := (0, 0, 23/20)
      rotation := (0, 0, 0), scale := (1, 1, 1) },
    { tag := .altarPart, kind := .uvSphere, segU := 16, segV := 12
      r1 := 1/5, r2 := 0, depth := 0
      location := (0, 0, 19/10)
      rotation := (0, 0, 0), scale := (1, 1, 1) } ]

/-- Hexagon corner angle used by `create_edge_spikes`:
`π/6 + k * π/3`. -/
def hexAngle (g : Trig α) (k : ℕ) : α := g.pi / 6 + (k : α) * (g.pi / 3)

/-- The interpolation fraction of spike `i` on an edge in V5:
`t = (i + 1) / 4` (source line `t = (i + 1) / 4`). -/
def spikeT (i : ℕ) : α := ((i : α) + 1) / 4

/-- Raw (pre-pull) position of spike `i` on edge `e`: linear
interpolation between the two adjacent hexagon corners at fraction
`spikeT i`. -/
def spikeBase (g : Trig α) (R : α) (e i : ℕ) : α × α :=
  let x1 := R * g.cos (hexAngle g e)
  let y1 := R * g.sin (hexAngle g e)
  let x2 := R * g.cos (hexAngle g (e + 1))
  let y2 := R * g.sin (hexAngle g (e + 1))
  (x1 + (x2 - x1) * spikeT i, y1 + (y2 - y1) * spikeT i)

/-- Final spike position: the raw point pulled `0.3` units toward the
origin (`x = x * (dist - 0.3) / dist`, same for `y`). -/
def spikePos (g : Trig α) (R : α) (e i : ℕ) : α × α :=
  let b := spikeBase g R e i
  let dist := g.sqrt (b.1 * b.1 + b.2 * b.2)
  (b.1 * (dist - 3/10) / dist, b.2 * (dist - 3/10) / dist)

/-- One edge spike: a 6-sided cone of base radius `0.1`, depth `0.4`,
at the pulled position, `z = 0.2`. -/
def spikeObj (g : Trig α) (R : α) (e i : ℕ) : Obj α :=
  { tag := .spike, kind := .cone, segU := 6, segV := 0
    r1 := 1/10, r2 := 0, depth := 2/5
    location := ((spikePos g R e i).1, (spikePos g R e i).2, 1/5)
    rotation := (0, 0, 0), scale := (1, 1, 1) }

/-- `create_edge_spikes`: three spikes on each of the six hexagon
edges. -/
def create_edge_spikes (g : Trig α) (R : α) : List (Obj α) :=
  ((List.range 6).map fun e => (List.range 3).map fun i => spikeObj g R e i).flatten

/-- Skull `i` of `create_skulls` in V5: angle `uniform(0, 2π)`, radius
`uniform(2.5, 5.0)` (no square root), drawn from consecutive stream
positions. -/
def skullObj (g : Trig α) (u : ℕ → α) (i : ℕ) : Obj α :=
  let angle := uniform 0 (2 * g.pi) (u (2 * i))
  let r := uniform (5/2) 5 (u (2 * i + 1))
  { tag := .skull, kind := .icoSphere, segU := 2, segV := 0
    r1 := 2/25, r2 := 0, depth := 0
    location := (r * g.cos angle, r * g.sin angle, 1/20)
    rotation := (0, 0, 0), scale := (1, 4/5, 17/20) }

/-- `create_skulls`: `count` scattered skulls. -/
def create_skulls (g : Trig α) (u : ℕ → α) (count : ℕ) : List (Obj α) :=
  (List.range count).map (skullObj g u)

/-- Horn `i` of `create_demon_horns`: angle `i * π/3 + π/6`, radius
`0.9`, tilted outward. -/
def hornObj (g : Trig α) (i : ℕ) : Obj α :=
  let angle := (i : α) * (g.pi / 3) + g.pi / 6
  { tag := .horn, kind := .cone, segU := 6, segV := 0
    r1 := 3/50, r2 := 0, depth := 7/20
    location := ((9/10) * g.cos angle, (9/10) * g.sin angle, 11/20)
    rotation := ((2/5) * g.sin angle, -((2/5) * g.cos angle), 0)
    scale := (1, 1, 1) }

/-- `create_demon_horns`: six horns around the altar. -/
def create_demon_horns (g : Trig α) : List (Obj α) :=
  (List.range 6).map (hornObj g)

/-- The output of one V5 generation run, grouped as in the build
section (smooth shading and the root-empty parenting of the scene
assembler carry no geometric data and are omitted). -/
structure SceneV5 (α : Type) where
  floor : Obj α
  rings : List (Obj α)
  pillars : List (List (Obj α))
  altarParts : List (Obj α)
  spikes : List (Obj α)
  skulls : List (Obj α)
  horns : List (Obj α)
  deriving DecidableEq

/-- The V5 build section: floor, three ritual rings, pillar composites
at the anchor points (radius `PLATFORM_RADIUS - 0.7`), altar, edge
spikes, skulls, horns. -/
def buildV5 (g : Trig α) (u : ℕ → α) (p : ParameterSet α) : SceneV5 α :=
  { floor := create_floor g p
    rings := p.ringSpecs.map fun rt => create_ritual_ring rt.1 rt.2
    pillars := (List.range p.pillarCount).map fun i =>
      create_pillar p (pillarAnchor g (p.platformRadius - 7/10) i).1
        (pillarAnchor g (p.platformRadius - 7/10) i).2
    altarParts := create_altar g
    spikes := create_edge_spikes g p.platformRadius
    skulls := create_skulls g u p.skullCount
    horns := create_demon_horns g }

/-- All objects of a V5 scene in build order. -/
def SceneV5.objects (s : SceneV5 α) : List (Obj α) :=
  s.floor :: (s.rings ++ s.pillars.flatten ++ s.altarParts ++ s.spikes ++ s.skulls ++ s.horns)

/-- A full pipeline run: the unit-draw stream is a function of the
seed alone (`random.seed(p.seed)` at module load), so the scene is a
function of the `ParameterSet`. -/
def runV5 (g : Trig α) (stream : ℕ → ℕ → α) (p : ParameterSet α) : SceneV5 α :=
  buildV5 g (stream p.seed) p

/-! ### Deformation (the bmesh taper of `create_pillar`, V5 lines
150–159, and `create_corner_pillar` in `boss_platform.py`) -/

/-- Linear interpolation, the spec-side form of the taper factor. -/
def lerp (a b t : α) : α := a + (b - a) * t

/-- The vertex-buffer taper: for every vertex with `z > 0` the factor
`1 - k * (z / H)` multiplies `x` and `y`; other vertices and every `z`
are untouched.  V5 uses `k = 0.15`, the V1 corner pillar `k = 0.3`. -/
def taperVerts (H k : α) (vs : List (α × α × α)) : List (α × α × α) :=
  vs.map fun v =>
    if 0 < v.2.2 then
      let t := v.2.2 / H
      let s := 1 - k * t
      (v.1 * s, v.2.1 * s, v.2.2)
    else v

/-! ### V4 builders (`boss_platform_v4.py`) -/

namespace V4

/-- One tessellated chain segment: the thin cylinder requested for a
sampled sub-arc (`radius`, `depth`, midpoint `location`, Euler
`rotation`). -/
structure CylSeg (α : Type) where
  radius : α
  depth : α
  location : α × α × α
  rotation : α × α × α
  deriving DecidableEq

/-- The quadratic Bezier evaluation of `chains_between` (source: local
`bez`, written with `u = 1 - t`). -/
def bez (p0 p1 p2 : α × α × α) (t : α) : α × α × α :=
  let u := 1 - t
  (u * u * p0.1 + 2 * u * t * p1.1 + t * t * p2.1,
   u * u * p0.2.1 + 2 * u * t * p1.2.1 + t * t * p2.2.1,
   u * u * p0.2.2 + 2 * u * t * p1.2.2 + t * t * p2.2.2)

/-- The textbook quadratic Bezier `B(t) = (1-t)²·P0 + 2(1-t)t·P1 + t²·P2`
as written in the spec (§4.4), for comparison with the code's `bez`. -/
def bezierSpecFormula (p0 p1 p2 : α × α × α) (t : α) : α × α × α :=
  ((1 - t) ^ 2 * p0.1 + 2 * (1 - t) * t * p1.1 + t ^ 2 * p2.1,
   (1 - t) ^ 2 * p0.2.1 + 2 * (1 - t) * t * p1.2.1 + t ^ 2 * p2.2.1,
   (1 - t) ^ 2 * p0.2.2 + 2 * (1 - t) * t * p1.2.2 + t ^ 2 * p2.2.2)

/-- Euclidean distance (`math.dist`) via the abstract square root. -/
def dist3 (g : Trig α) (a b : α × α × α) : α :=
  g.sqrt ((b.1 - a.1) ^ 2 + (b.2.1 - a.2.1) ^ 2 + (b.2.2 - a.2.2) ^ 2)

/-- Segment midpoint. -/
def mid3 (a b : α × α × α) : α × α × α :=
  ((a.1 + b.1) / 2, (a.2.1 + b.2.1) / 2, (a.2.2 + b.2.2) / 2)

/-- The capsule-chain tessellation loop of `chains_between`: `links`
segments, the `j`-th spanning parameters `j/links` to `(j+1)/links`,
each a cylinder of depth `math.dist(p1, p2)` at the segment midpoint
with rotation `(π/2, 0, atan2(Δy, Δx))`. -/
def chainSegments (g : Trig α) (p0 p1 p2 : α × α × α) (r : α) (links : ℕ) :
    List (CylSeg α) :=
  (List.range links).map fun (j : ℕ) =>
    let t := (j : α) / (links : α)
    let t2 := ((j : α) + 1) / (links : α)
    let q1 := bez p0 p1 p2 t
    let q2 := bez p0 p1 p2 t2
    { radius := r, depth := dist3 g q1 q2, location := mid3 q1 q2
      rotation := (g.pi / 2, 0, g.atan2 (q2.2.1 - q1.2.1) (q2.1 - q1.1)) }

/-- `chains_between`: one 12-link chain of radius `0.035` per pair of
consecutive pillar tops, sagging `0.3` below `0.9 * PILLAR_HEIGHT`. -/
def chains_between (g : Trig α) (positions : List (α × α)) (H : α) :
    List (CylSeg α) :=
  ((List.range 6).map fun i =>
    let a := positions.getD i (0, 0)
    let b := positions.getD ((i + 1) % 6) (0, 0)
    let ztop := H * (9/10)
    let ctrl := ((a.1 + b.1) / 2, (a.2 + b.2) / 2, ztop - 3/10)
    chainSegments g (a.1, a.2, ztop) ctrl (b.1, b.2, ztop) (7/200) 12).flatten

/-- The V4 edge-spike interpolation fraction: `t = (j + 0.5) / 4` for
`j` in `range(4)`. -/
def v4SpikeT (j : ℕ) : α := ((j : α) + 1/2) / 4

/-- `hex_vertices` of V4: six corners at angles `offset + i * τ/6`. -/
def hexVertices (g : Trig α) (R offset : α) (i : ℕ) : α × α :=
  (g.cos (offset + (i : α) * (2 * g.pi / 6)) * R,
   g.sin (offset + (i : α) * (2 * g.pi / 6)) * R)

/-- Raw position of V4 edge spike `j` on edge `i`: linear interpolation
between consecutive `hex_vertices(R + 0.05, π/6)` corners at fraction
`v4SpikeT j` (indices wrap modulo 6). -/
def v4SpikeBase (g : Trig α) (R : α) (i j : ℕ) : α × α :=
  let v1 := hexVertices g (R + 1/20) (g.pi / 6) i
  let v2 := hexVertices g (R + 1/20) (g.pi / 6) ((i + 1) % 6)
  (v1.1 + (v2.1 - v1.1) * v4SpikeT j, v1.2 + (v2.2 - v1.2) * v4SpikeT j)

end V4

/-! ### V3 ring carver (`boss_platform_v3.py`, `create_hex_ring`) -/

namespace V3

/-- The data of one `primitive_cylinder_add` request issued by the ring
carver. -/
structure CylPrim (α : Type) where
  vertices : ℕ
  radius : α
  depth : α
  center : α × α × α
  rotZ : α
  deriving DecidableEq

/-- Host scene-graph calls issued by the carver, in order. -/
inductive HostEvent (α : Type) where
  | createPrim (id : ℕ) (p : CylPrim α)
  | boolDifference (target operand : ℕ)
  | removeObject (id : ℕ)
  deriving DecidableEq

/-- The call trace of `create_hex_ring(radius, thickness, height)`:
outer hex prism of `radius`/`height`, inner hex prism of
`radius - thickness` with depth `height + 0.1`, boolean difference
(outer minus inner), removal of the inner operand.  No parameter
validation appears in the source, so the trace is produced
unconditionally. -/
def create_hex_ring (g : Trig α) (radius thickness height : α) :
    List (HostEvent α) :=
  [ .createPrim 0 ⟨6, radius, height, (0, 0, height / 2), g.pi / 6⟩,
    .createPrim 1 ⟨6, radius - thickness, height + 1/10, (0, 0, height / 2), g.pi / 6⟩,
    .boolDifference 0 1,
    .removeObject 1 ]

/-- Scene bookkeeping: object ids still present after an event. -/
def stepLive (ids : List ℕ) : HostEvent α → List ℕ
  | .createPrim i _ => ids ++ [i]
  | .boolDifference _ _ => ids
  | .removeObject i => ids.filter fun j => j != i

/-- Object ids remaining in the scene after a call trace. -/
def liveIds (tr : List (HostEvent α)) : List ℕ := tr.foldl stepLive []

/-- Lower end cap of a primitive along the subtraction axis. -/
def zLow (p : CylPrim α) : α := p.center.2.2 - p.depth / 2

/-- Upper end cap of a primitive along the subtraction axis. -/
def zHigh (p : CylPrim α) : α := p.center.2.2 + p.depth / 2

/-- Skull `i` of V3 `create_skulls`: angle `random() * τ`, radius
`R * sqrt(random())`, placed at `z = 0.06` (consecutive draws). -/
def v3SkullPos (g : Trig α) (u : ℕ → α) (R : α) (i : ℕ) : α × α × α :=
  let ang := u (2 * i) * (2 * g.pi)
  let r := R * g.sqrt (u (2 * i + 1))
  (g.cos ang * r, g.sin ang * r, 3/50)

end V3

/-! ### The real math host -/

/-- The actual math host: `math.cos`, `math.sin`, `math.sqrt`,
`math.atan2` (the argument of `x + y·i`), `math.pi` over the reals.
Noncomputable only because real trigonometry has no executable code in
Lean; every generator definition itself stays computable. -/
noncomputable def realTrig : Trig ℝ :=
  { cos := Real.cos, sin := Real.sin, sqrt := Real.sqrt
    atan2 := fun y x => Complex.arg ⟨x, y⟩, pi := Real.pi }

/-- Planar (xy) distance from the origin. -/
noncomputable def planarNorm (p : ℝ × ℝ) : ℝ := Real.sqrt (p.1 ^ 2 + p.2 ^ 2)

/-- Model of the solid produced by `primitive_cylinder_add(vertices=6,
radius=R)`: the regular hexagonal prism cross-section with circumradius
`R`, i.e. the intersection of six half-planes with outward normals at
angles `k * π/3` and apothem `R * √3 / 2`.  Both carver operands carry
the same `π/6` z-rotation, so the shared rotation is dropped. -/
def hexRegion (R : ℝ) : Set (ℝ × ℝ) :=
  {p | ∀ k, k < 6 →
    p.1 * Real.cos ((k : ℝ) * (Real.pi / 3)) +
      p.2 * Real.sin ((k : ℝ) * (Real.pi / 3)) ≤ R * (Real.sqrt 3 / 2)}

/-- Model of the solid of one carver operand: hexagonal cross-section
of its radius, z between the two end caps. -/
def prismRegion (p : V3.CylPrim ℝ) : Set (ℝ × ℝ × ℝ) :=
  {v | (v.1, v.2.1) ∈ hexRegion p.radius ∧ |v.2.2 - p.center.2.2| ≤ p.depth / 2}

/-- Modelled host CSG semantics of `create_hex_ring`: the boolean
difference of the two operand solids it creates (outer minus inner), as
a set difference. -/
def carveRegion (R t h : ℝ) : Set (ℝ × ℝ × ℝ) :=
  prismRegion ⟨6, R, h, (0, 0, h / 2), Real.pi / 6⟩ \
    prismRegion ⟨6, R - t, h + 1/10, (0, 0, h / 2), Real.pi / 6⟩

/-! ### Witness instantiations -/

/-- Dummy math host over `ℚ`, enough to evaluate everything that does
not depend on actual trigonometric values. -/
def qTrig : Trig ℚ :=
  { cos := fun _ => 0, sin := fun _ => 0, sqrt := fun _ => 0
    atan2 := fun _ _ => 0, pi := 0 }

/-- The all-zeroes draw stream over `ℚ`. -/
def zeroStream : ℕ → ℕ → ℚ := fun _ _ => 0

/-! ### Claims C1 and C2 -/

set_option maxHeartbeats 1000000 in
/-- Claim C1: the canonical run (ParameterSet platformRadius 7.0,
ringRadii [5.5, 3.5, 1.8], pillarHeight 3.0, pillarCount 6, seed 42)
produces exactly 1 floor mesh, 3 ring meshes, 6 pillar composites each
with at least 5 sub-meshes, 1 altar composite with at least 5
sub-meshes, 18 edge spikes, 8 scatter skulls, and 6 horns. -/
theorem c1_canonical_counts (g : Trig α) (u : ℕ → α) :
    (((buildV5 g u canonicalParams).objects.map Obj.tag).count ObjTag.floor = 1) ∧
    (buildV5 g u canonicalParams).rings.length = 3 ∧
    (buildV5 g u canonicalParams).pillars.length = 6 ∧
    ((buildV5 g u canonicalParams).pillars.all fun c => decide (5 ≤ c.length)) = true ∧
    5 ≤ (buildV5 g u canonicalParams).altarParts.length ∧
    (buildV5 g u canonicalParams).spikes.length = 18 ∧
    (buildV5 g u canonicalParams).skulls.length = 8 ∧
    (buildV5 g u canonicalParams).horns.length = 6 :=
  ⟨rfl, rfl, rfl, rfl, Nat.le_refl 5, rfl, rfl, rfl⟩

/-- Claim C2: two independent runs of the full V5 pipeline with the
same `ParameterSet` (including the same seed, which fixes the draw
stream) produce identical scenes. -/
theorem c2_deterministic (g : Trig α) (stream : ℕ → ℕ → α)
    (p q : ParameterSet α) (h : p = q) :
    runV5 g stream p = runV5 g stream q :=
  congrArg (runV5 g stream) h

/-- Witness for C2 at the canonical rational parameter set. -/
theorem c2_deterministic_witness :
    runV5 qTrig zeroStream (canonicalParams (α := ℚ)) =
      runV5 qTrig zeroStream (canonicalParams (α := ℚ)) :=
  c2_deterministic qTrig zeroStream canonicalParams canonicalParams rfl

/-! ### Claim C3: the curve tessellator -/

/-- The code's Horner-style Bezier evaluation agrees with the spec's
`(1-t)²·P0 + 2(1-t)t·P1 + t²·P2`. -/
theorem bez_eq_spec (p0 p1 p2 : α × α × α) (t : α) :
    V4.bez p0 p1 p2 t = V4.bezierSpecFormula p0 p1 p2 t := by
  unfold V4.bez V4.bezierSpecFormula
  rw [Prod.mk.injEq, Prod.mk.injEq]
  refine ⟨by ring, by ring, by ring⟩

/-- Claim C3: for every Bezier spec (P0, P1, P2, tube radius, sample
count N ≥ 1) the tessellator produces exactly N segments, the j-th
spanning `B(j/N)` to `B((j+1)/N)` with `B` the quadratic Bezier, each a
cylinder whose depth is the Euclidean distance of the two samples,
whose location is the segment midpoint, and whose rotation combines
`atan2(Δy, Δx)` about the vertical axis with a fixed `π/2` tilt. -/
theorem c3_tessellator (g : Trig α) (p0 p1 p2 : α × α × α) (r : α)
    (n : ℕ) (hn : 1 ≤ n) :
    (V4.chainSegments g p0 p1 p2 r n).length = n ∧
    ∀ j, j < n →
      (V4.chainSegments g p0 p1 p2 r n)[j]? = some
        { radius := r
          depth := V4.dist3 g (V4.bezierSpecFormula p0 p1 p2 ((j : α) / n))
            (V4.bezierSpecFormula p0 p1 p2 (((j : α) + 1) / n))
          location := V4.mid3 (V4.bezierSpecFormula p0 p1 p2 ((j : α) / n))
            (V4.bezierSpecFormula p0 p1 p2 (((j : α) + 1) / n))
          rotation := (g.pi / 2, 0,
            g.atan2
              ((V4.bezierSpecFormula p0 p1 p2 (((j : α) + 1) / n)).2.1 -
                (V4.bezierSpecFormula p0 p1 p2 ((j : α) / n)).2.1)
              ((V4.bezierSpecFormula p0 p1 p2 (((j : α) + 1) / n)).1 -
                (V4.bezierSpecFormula p0 p1 p2 ((j : α) / n)).1)) } := by
  constructor
  · unfold V4.chainSegments
    rw [List.length_map, List.length_range]
  · intro j hj
    unfold V4.chainSegments
    rw [List.getElem?_map, List.getElem?_range hj, Option.map_some']
    simp only [bez_eq_spec]

/-- Witness for C3: two segments at a concrete rational spec. -/
theorem c3_tessellator_witness :
    1 ≤ 2 ∧
      (V4.chainSegments qTrig ((0 : ℚ), 0, 0) (1, 2, 3) (2, 0, 1) (1/2) 2).length = 2 :=
  ⟨by decide,
    (c3_tessellator qTrig ((0 : ℚ), 0, 0) (1, 2, 3) (2, 0, 1) (1/2) 2 (by decide)).1⟩

/-! ### Claim C4: edge-spike interpolation fractions -/

/-- Counterexample to C4 as stated: the canonical V5 builder places 3
spikes per edge at fractions `(i+1)/4`, so spike 0 sits at `1/4`, not
at `(0 + 0.5)/3 = 1/6`. -/
theorem c4_counterexample :
    spikeT 0 = (1/4 : ℚ) ∧ ((0 : ℚ) + 1/2) / 3 ≠ spikeT 0 := by
  constructor
  · norm_num [spikeT]
  · norm_num [spikeT]

/-- Claim C4 (amended): V4 places 4 spikes per edge at fractions
`(j + 0.5)/4` while V5 places 3 spikes per edge at `(i + 1)/4`; in both
versions the fractions are strictly between 0 and 1 (never at a
vertex), consecutive fractions differ by the constant `1/4`, and the
spike position is the linear interpolation of the two adjacent hexagon
corners at that fraction. -/
theorem c4_amended (g : Trig α) :
    (∀ j, j < 4 → V4.v4SpikeT j = ((j : α) + 1/2) / 4 ∧
      0 < (V4.v4SpikeT j : α) ∧ (V4.v4SpikeT j : α) < 1) ∧
    (∀ j, (V4.v4SpikeT (j + 1) : α) - V4.v4SpikeT j = 1/4) ∧
    (∀ i, i < 3 → spikeT i = ((i : α) + 1) / 4 ∧
      0 < (spikeT i : α) ∧ (spikeT i : α) < 1) ∧
    (∀ i, (spikeT (i + 1) : α) - spikeT i = 1/4) ∧
    (∀ R e i, spikeBase g R e i =
      ((1 - spikeT i) * (R * g.cos (hexAngle g e)) +
          spikeT i * (R * g.cos (hexAngle g (e + 1))),
        (1 - spikeT i) * (R * g.sin (hexAngle g e)) +
          spikeT i * (R * g.sin (hexAngle g (e + 1))))) ∧
    (∀ R i j, V4.v4SpikeBase g R i j =
      ((1 - V4.v4SpikeT j) * (V4.hexVertices g (R + 1/20) (g.pi / 6) i).1 +
          V4.v4SpikeT j * (V4.hexVertices g (R + 1/20) (g.pi / 6) ((i + 1) % 6)).1,
        (1 - V4.v4SpikeT j) * (V4.hexVertices g (R + 1/20) (g.pi / 6) i).2 +
          V4.v4SpikeT j * (V4.hexVertices g (R + 1/20) (g.pi / 6) ((i + 1) % 6)).2)) := by
  refine ⟨?_, ?_, ?_, ?_, ?_, ?_⟩
  · intro j hj
    refine ⟨rfl, ?_, ?_⟩
    · have : (0 : α) ≤ (j : α) := Nat.cast_nonneg j
      unfold V4.v4SpikeT
      positivity
    · unfold V4.v4SpikeT
      have hj3 : j ≤ 3 := by omega
      have hc : (j : α) ≤ 3 := by exact_mod_cast hj3
      rw [div_lt_one (by norm_num)]
      linarith
  · intro j
    unfold V4.v4SpikeT
    push_cast
    ring
  · intro i hi
    refine ⟨rfl, ?_, ?_⟩
    · have : (0 : α) ≤ (i : α) := Nat.cast_nonneg i
      unfold spikeT
      positivity
    · unfold spikeT
      have hi2 : i ≤ 2 := by omega
      have hc : (i : α) ≤ 2 := by exact_mod_cast hi2
      rw [div_lt_one (by norm_num)]
      linarith
  · intro i
    unfold spikeT
    push_cast
    ring
  · intro R e i
    unfold spikeBase
    rw [Prod.mk.injEq]
    exact ⟨by ring, by ring⟩
  · intro R i j
    unfold V4.v4SpikeBase
    rw [Prod.mk.injEq]
    exact ⟨by ring, by ring⟩

/-- Witness for C4 (amended): the first V4 fraction is `1/8`, strictly
inside the edge. -/
theorem c4_amended_witness :
    (0 < 4 ∧ (V4.v4SpikeT 0 = ((0 : ℚ) + 1/2) / 4 ∧
      0 < (V4.v4SpikeT 0 : ℚ) ∧ (V4.v4SpikeT 0 : ℚ) < 1)) :=
  ⟨by decide, (c4_amended (α := ℚ) qTrig).1 0 (by decide)⟩

/-! ### Claim C6: the ring carver's call sequence -/

/-- Claim C6: `create_hex_ring(radius, thickness, height)` creates the
outer prism of radius `radius` and depth `height`, then the inner prism
of radius `radius - thickness` with strictly larger depth
`height + 0.1` whose solid protrudes past both end caps of the outer
one, requests the boolean difference outer-minus-inner, and removes the
inner operand, which therefore does not remain in the scene. -/
theorem c6_carver (g : Trig α) (R t h : α) :
    ∃ outerP innerP : V3.CylPrim α,
      V3.create_hex_ring g R t h =
        [.createPrim 0 outerP, .createPrim 1 innerP,
          .boolDifference 0 1, .removeObject 1] ∧
      outerP.radius = R ∧ outerP.depth = h ∧
      innerP.radius = R - t ∧ innerP.depth = h + 1/10 ∧
      outerP.depth < innerP.depth ∧
      V3.zLow innerP < V3.zLow outerP ∧ V3.zHigh outerP < V3.zHigh innerP ∧
      V3.liveIds (V3.create_hex_ring g R t h) = [0] := by
  refine ⟨_, _, rfl, rfl, rfl, rfl, rfl, ?_, ?_, ?_, rfl⟩
  · show h < h + 1/10
    linarith [show (0 : α) < 1/10 by norm_num]
  · unfold V3.zLow
    simp only
    linarith [show (0 : α) < 1/20 by norm_num]
  · unfold V3.zHigh
    simp only
    linarith [show (0 : α) < 1/20 by norm_num]

/-! ### Claim C9: the vertex taper -/

/-- Claim C9: the taper leaves the axis coordinate of every vertex and
every vertex at or below the base unchanged, and multiplies the two
off-axis coordinates of every vertex with positive axis coordinate by
`lerp startScale endScale (z / H)` (here `startScale = 1`,
`endScale = 1 - k`; V5 uses `k = 0.15`). -/
theorem c9_taper (H k : α) (vs : List (α × α × α)) (i : ℕ) (x y z : α)
    (hv : vs[i]? = some (x, y, z)) :
    (taperVerts H k vs).length = vs.length ∧
    (0 < z → (taperVerts H k vs)[i]? =
      some (x * lerp 1 (1 - k) (z / H), y * lerp 1 (1 - k) (z / H), z)) ∧
    (z ≤ 0 → (taperVerts H k vs)[i]? = some (x, y, z)) := by
  have hlerp : lerp (1 : α) (1 - k) (z / H) = 1 - k * (z / H) := by
    unfold lerp
    ring
  refine ⟨by simp [taperVerts], ?_, ?_⟩
  · intro hz
    rw [hlerp]
    simp [taperVerts, List.getElem?_map, hv, hz]
  · intro hz
    simp [taperVerts, List.getElem?_map, hv, show ¬(0 < z) from not_lt.mpr hz]

/-- Witness for C9 at a concrete vertex above the base. -/
theorem c9_taper_witness :
    ([((1 : ℚ), 2, 3)][0]? = some (1, 2, 3)) ∧ (0 : ℚ) < 3 ∧
      (taperVerts (3 : ℚ) (15/100) [(1, 2, 3)])[0]? =
        some (1 * lerp 1 (1 - 15/100) (3 / 3), 2 * lerp 1 (1 - 15/100) (3 / 3), 3) :=
  ⟨rfl, by norm_num,
    (c9_taper (3 : ℚ) (15/100) [(1, 2, 3)] 0 1 2 3 rfl).2.1 (by norm_num)⟩

/-! ### Trigonometric value tables for the hexagon angles -/

/-- Value of `cos(π/6 + 0·π/3)`. -/
theorem cosH0 : realTrig.cos (hexAngle realTrig 0) = Real.sqrt 3 / 2 := by
  have h : hexAngle realTrig 0 = Real.pi / 6 := by
    simp [hexAngle, realTrig]
  rw [show realTrig.cos = Real.cos from rfl, h, Real.cos_pi_div_six]

/-- Value of `sin(π/6 + 0·π/3)`. -/
theorem sinH0 : realTrig.sin (hexAngle realTrig 0) = 1 / 2 := by
  have h : hexAngle realTrig 0 = Real.pi / 6 := by
    simp [hexAngle, realTrig]
  rw [show realTrig.sin = Real.sin from rfl, h, Real.sin_pi_div_six]

/-- Value of `cos(π/6 + 1·π/3)`. -/
theorem cosH1 : realTrig.cos (hexAngle realTrig 1) = 0 := by
  have h : hexAngle realTrig 1 = Real.pi / 2 := by
    simp [hexAngle, realTrig]
    ring
  rw [show realTrig.cos = Real.cos from rfl, h, Real.cos_pi_div_two]

/-- Value of `sin(π/6 + 1·π/3)`. -/
theorem sinH1 : realTrig.sin (hexAngle realTrig 1) = 1 := by
  have h : hexAngle realTrig 1 = Real.pi / 2 := by
    simp [hexAngle, realTrig]
    ring
  rw [show realTrig.sin = Real.sin from rfl, h, Real.sin_pi_div_two]

/-- Value of `cos(π/6 + 2·π/3)`. -/
theorem cosH2 : realTrig.cos (hexAngle realTrig 2) = -(Real.sqrt 3 / 2) := by
  have h : hexAngle realTrig 2 = Real.pi - Real.pi / 6 := by
    simp [hexAngle, realTrig]
    ring
  rw [show realTrig.cos = Real.cos from rfl, h, Real.cos_pi_sub, Real.cos_pi_div_six]

/-- Value of `sin(π/6 + 2·π/3)`. -/
theorem sinH2 : realTrig.sin (hexAngle realTrig 2) = 1 / 2 := by
  have h : hexAngle realTrig 2 = Real.pi - Real.pi / 6 := by
    simp [hexAngle, realTrig]
    ring
  rw [show realTrig.sin = Real.sin from rfl, h, Real.sin_pi_sub, Real.sin_pi_div_six]

/-- Value of `cos(π/6 + 3·π/3)`. -/
theorem cosH3 : realTrig.cos (hexAngle realTrig 3) = -(Real.sqrt 3 / 2) := by
  have h : hexAngle realTrig 3 = Real.pi / 6 + Real.pi := by
    simp [hexAngle, realTrig]
    ring
  rw [show realTrig.cos = Real.cos from rfl, h, Real.cos_add_pi, Real.cos_pi_div_six]

/-- Value of `sin(π/6 + 3·π/3)`. -/
theorem sinH3 : realTrig.sin (hexAngle realTrig 3) = -(1 / 2) := by
  have h : hexAngle realTrig 3 = Real.pi / 6 + Real.pi := by
    simp [hexAngle, realTrig]
    ring
  rw [show realTrig.sin = Real.sin from rfl, h, Real.sin_add_pi, Real.sin_pi_div_six]

/-- Value of `cos(π/6 + 4·π/3)`. -/
theorem cosH4 : realTrig.cos (hexAngle realTrig 4) = 0 := by
  have h : hexAngle realTrig 4 = Real.pi / 2 + Real.pi := by
    simp [hexAngle, realTrig]
    ring
  rw [show realTrig.cos = Real.cos from rfl, h, Real.cos_add_pi, Real.cos_pi_div_two]
  norm_num

/-- Value of `sin(π/6 + 4·π/3)`. -/
theorem sinH4 : realTrig.sin (hexAngle realTrig 4) = -1 := by
  have h : hexAngle realTrig 4 = Real.pi / 2 + Real.pi := by
    simp [hexAngle, realTrig]
    ring
  rw [show realTrig.sin = Real.sin from rfl, h, Real.sin_add_pi, Real.sin_pi_div_two]

/-- Value of `cos(π/6 + 5·π/3)`. -/
theorem cosH5 : realTrig.cos (hexAngle realTrig 5) = Real.sqrt 3 / 2 := by
  have h : hexAngle realTrig 5 = -(Real.pi / 6) + 2 * Real.pi := by
    simp [hexAngle, realTrig]
    ring
  rw [show realTrig.cos = Real.cos from rfl, h, Real.cos_add_two_pi, Real.cos_neg,
    Real.cos_pi_div_six]

/-- Value of `sin(π/6 + 5·π/3)`. -/
theorem sinH5 : realTrig.sin (hexAngle realTrig 5) = -(1 / 2) := by
  have h : hexAngle realTrig 5 = -(Real.pi / 6) + 2 * Real.pi := by
    simp [hexAngle, realTrig]
    ring
  rw [show realTrig.sin = Real.sin from rfl, h, Real.sin_add_two_pi, Real.sin_neg,
    Real.sin_pi_div_six]

/-- Value of `cos(π/6 + 6·π/3)`. -/
theorem cosH6 : realTrig.cos (hexAngle realTrig 6) = Real.sqrt 3 / 2 := by
  have h : hexAngle realTrig 6 = Real.pi / 6 + 2 * Real.pi := by
    simp [hexAngle, realTrig]
    ring
  rw [show realTrig.cos = Real.cos from rfl, h, Real.cos_add_two_pi, Real.cos_pi_div_six]

/-- Value of `sin(π/6 + 6·π/3)`. -/
theorem sinH6 : realTrig.sin (hexAngle realTrig 6) = 1 / 2 := by
  have h : hexAngle realTrig 6 = Real.pi / 6 + 2 * Real.pi := by
    simp [hexAngle, realTrig]
    ring
  rw [show realTrig.sin = Real.sin from rfl, h, Real.sin_add_two_pi, Real.sin_pi_div_six]

/-! ### Claim C5: skull scatter distribution -/

/-- Counterexample to C5 as stated: in the canonical V5 builder, with
every unit draw equal to 0 the first skull lands at planar distance
`2.5` from the origin, while the claimed `R·sqrt(u)` law yields
distance `R·sqrt(0) = 0` for every disk radius `R`. -/
theorem c5_counterexample :
    (skullObj realTrig (fun _ => 0) 0).location = ((5/2 : ℝ), 0, 1/20) ∧
      Real.sqrt 0 = 0 ∧ ((5/2 : ℝ)) ≠ 0 := by
  refine ⟨?_, Real.sqrt_zero, by norm_num⟩
  simp [skullObj, uniform, realTrig]

/-- Claim C5 (amended): the V3 skull scatter draws angle `u·2π` and
radius `R·sqrt(u)` (uniform by area in a disk), but the canonical V5
skull scatter draws its radius `uniform(2.5, 5.0) = 2.5 + 2.5·u`
directly — an annulus with uniform linear radial density, with no
square root. -/
theorem c5_amended (g : Trig α) (u : ℕ → α) (R : α) (i : ℕ) :
    V3.v3SkullPos g u R i =
      (g.cos (u (2 * i) * (2 * g.pi)) * (R * g.sqrt (u (2 * i + 1))),
        g.sin (u (2 * i) * (2 * g.pi)) * (R * g.sqrt (u (2 * i + 1))), 3/50) ∧
    (skullObj g u i).location =
      (uniform (5/2) 5 (u (2 * i + 1)) * g.cos (uniform 0 (2 * g.pi) (u (2 * i))),
        uniform (5/2) 5 (u (2 * i + 1)) * g.sin (uniform 0 (2 * g.pi) (u (2 * i))), 1/20) ∧
    uniform (5/2) 5 (u (2 * i + 1)) = 5/2 + (5/2) * u (2 * i + 1) := by
  refine ⟨rfl, rfl, ?_⟩
  unfold uniform
  ring

/-! ### Claim C8: the six pillar anchor points -/

/-- Anchor 0 sits at `(r, 0)`. -/
theorem anchor0 (r : ℝ) : pillarAnchor realTrig r 0 = (r, 0) := by
  unfold pillarAnchor
  simp [realTrig]

/-- Anchor 1 sits at `(r/2, r·√3/2)`. -/
theorem anchor1 (r : ℝ) : pillarAnchor realTrig r 1 = (r / 2, r * Real.sqrt 3 / 2) := by
  unfold pillarAnchor
  simp only [realTrig]
  rw [show ((1 : ℕ) : ℝ) * (Real.pi / 3) = Real.pi / 3 by push_cast; ring,
    Real.cos_pi_div_three, Real.sin_pi_div_three]
  rw [Prod.mk.injEq]
  exact ⟨by ring, by ring⟩

/-- Anchor 2 sits at `(-(r/2), r·√3/2)`. -/
theorem anchor2 (r : ℝ) : pillarAnchor realTrig r 2 = (-(r / 2), r * Real.sqrt 3 / 2) := by
  unfold pillarAnchor
  simp only [realTrig]
  rw [show ((2 : ℕ) : ℝ) * (Real.pi / 3) = Real.pi - Real.pi / 3 by push_cast; ring,
    Real.cos_pi_sub, Real.sin_pi_sub, Real.cos_pi_div_three, Real.sin_pi_div_three]
  rw [Prod.mk.injEq]
  exact ⟨by ring, by ring⟩

/-- Anchor 3 sits at `(-r, 0)`. -/
theorem anchor3 (r : ℝ) : pillarAnchor realTrig r 3 = (-r, 0) := by
  unfold pillarAnchor
  simp only [realTrig]
  rw [show ((3 : ℕ) : ℝ) * (Real.pi / 3) = Real.pi by push_cast; ring,
    Real.cos_pi, Real.sin_pi]
  rw [Prod.mk.injEq]
  exact ⟨by ring, by ring⟩

/-- Anchor 4 sits at `(-(r/2), -(r·√3/2))`. -/
theorem anchor4 (r : ℝ) : pillarAnchor realTrig r 4 = (-(r / 2), -(r * Real.sqrt 3 / 2)) := by
  unfold pillarAnchor
  simp only [realTrig]
  rw [show ((4 : ℕ) : ℝ) * (Real.pi / 3) = Real.pi / 3 + Real.pi by push_cast; ring,
    Real.cos_add_pi, Real.sin_add_pi, Real.cos_pi_div_three, Real.sin_pi_div_three]
  rw [Prod.mk.injEq]
  exact ⟨by ring, by ring⟩

/-- Anchor 5 sits at `(r/2, -(r·√3/2))`. -/
theorem anchor5 (r : ℝ) : pillarAnchor realTrig r 5 = (r / 2, -(r * Real.sqrt 3 / 2)) := by
  unfold pillarAnchor
  simp only [realTrig]
  rw [show ((5 : ℕ) : ℝ) * (Real.pi / 3) = -(Real.pi / 3) + 2 * Real.pi by push_cast; ring,
    Real.cos_add_two_pi, Real.sin_add_two_pi, Real.cos_neg, Real.sin_neg,
    Real.cos_pi_div_three, Real.sin_pi_div_three]
  rw [Prod.mk.injEq]
  exact ⟨by ring, by ring⟩

/-- Claim C8: for `N = 6`, angular offset 0 and anchor radius `r ≥ 0`,
the six pillar anchor points are exactly `(r, 0)`, `(r/2, r√3/2)`,
`(-r/2, r√3/2)`, `(-r, 0)`, `(-r/2, -r√3/2)`, `(r/2, -r√3/2)` in index
order, and point `i` (at angle `i·π/3` by construction) lies at
Euclidean distance `r` from the origin. -/
theorem c8_anchors (r : ℝ) (hr : 0 ≤ r) :
    (List.range 6).map (pillarAnchor realTrig r) =
      [(r, 0), (r / 2, r * Real.sqrt 3 / 2), (-(r / 2), r * Real.sqrt 3 / 2),
        (-r, 0), (-(r / 2), -(r * Real.sqrt 3 / 2)), (r / 2, -(r * Real.sqrt 3 / 2))] ∧
    ∀ i, i < 6 → planarNorm (pillarAnchor realTrig r i) = r := by
  constructor
  · rw [show List.range 6 = [0, 1, 2, 3, 4, 5] from rfl]
    simp only [List.map_cons, List.map_nil, anchor0, anchor1, anchor2, anchor3,
      anchor4, anchor5]
  · intro i _
    unfold pillarAnchor planarNorm
    simp only [realTrig]
    have h1 : (r * Real.cos ((i : ℝ) * (Real.pi / 3))) ^ 2 +
        (r * Real.sin ((i : ℝ) * (Real.pi / 3))) ^ 2 = r ^ 2 := by
      have hs := Real.sin_sq_add_cos_sq ((i : ℝ) * (Real.pi / 3))
      nlinarith [hs]
    rw [h1, Real.sqrt_sq hr]

/-- Witness for C8 at `r = 1`. -/
theorem c8_anchors_witness :
    (0 : ℝ) ≤ 1 ∧
      (List.range 6).map (pillarAnchor realTrig 1) =
        [((1 : ℝ), 0), (1 / 2, 1 * Real.sqrt 3 / 2), (-(1 / 2), 1 * Real.sqrt 3 / 2),
          (-1, 0), (-(1 / 2), -(1 * Real.sqrt 3 / 2)), (1 / 2, -(1 * Real.sqrt 3 / 2))] :=
  ⟨by norm_num, (c8_anchors 1 (by norm_num)).1⟩

/-! ### Claim C7: carve validity and (lack of) parameter validation -/

/-- Counterexample to C7 as stated: called with thickness `-1 ≤ 0`,
`create_hex_ring` raises no error and still issues all four host calls
(outer create, inner create, boolean difference, removal) — nothing is
detected before host calls are made. -/
theorem c7_counterexample :
    (-1 : ℚ) ≤ 0 ∧ (V3.create_hex_ring qTrig (7 : ℚ) (-1) (1/40)).length = 4 ∧
      (4 : ℕ) ≠ 0 := by
  refine ⟨by norm_num, rfl, by norm_num⟩

/-- Claim C7 (amended): with positive outer radius, thickness and
height, the carve's modelled boolean difference (outer hexagonal prism
minus the over-deep inner one) is a non-degenerate, nonempty solid; the
source performs no thickness validation, so for every thickness —
positive or not — the carver issues its four host calls
unconditionally. -/
theorem c7_amended (R t h : ℝ) :
    (0 < R → 0 < t → 0 < h → (carveRegion R t h).Nonempty) ∧
    (V3.create_hex_ring realTrig R t h).length = 4 := by
  constructor
  · intro hR ht hh
    have hs3 : (0 : ℝ) < Real.sqrt 3 / 2 := by
      have := Real.sqrt_pos.mpr (show (0 : ℝ) < 3 by norm_num)
      linarith
    set aO : ℝ := R * (Real.sqrt 3 / 2) with haO
    set aI : ℝ := (R - t) * (Real.sqrt 3 / 2) with haI
    have haOpos : 0 < aO := mul_pos hR hs3
    have haIO : aI < aO := by
      apply mul_lt_mul_of_pos_right _ hs3
      linarith
    set x0 : ℝ := (max aI 0 + aO) / 2 with hx0
    have hx0pos : 0 < x0 := by
      have : (0 : ℝ) ≤ max aI 0 := le_max_right aI 0
      rw [hx0]
      linarith
    have hx0le : x0 ≤ aO := by
      have : max aI 0 ≤ aO := max_le haIO.le haOpos.le
      rw [hx0]
      linarith
    have hx0gt : aI < x0 := by
      have : aI ≤ max aI 0 := le_max_left aI 0
      rw [hx0]
      linarith
    refine ⟨(x0, 0, h / 2), ⟨?_, ?_⟩, ?_⟩
    · intro k _
      simp only
      have hc : Real.cos ((k : ℝ) * (Real.pi / 3)) ≤ 1 := Real.cos_le_one _
      have : x0 * Real.cos ((k : ℝ) * (Real.pi / 3)) ≤ x0 * 1 :=
        mul_le_mul_of_nonneg_left hc hx0pos.le
      simp only [zero_mul, add_zero]
      calc x0 * Real.cos ((k : ℝ) * (Real.pi / 3)) ≤ x0 * 1 := this
        _ = x0 := mul_one x0
        _ ≤ aO := hx0le
    · simp only
      rw [show h / 2 - h / 2 = 0 by ring, abs_zero]
      linarith
    · intro hmem
      have h0 := hmem.1 0 (by norm_num)
      simp only [Nat.cast_zero, zero_mul, Real.cos_zero, Real.sin_zero, mul_one,
        mul_zero, add_zero] at h0
      exact absurd h0 (not_le.mpr hx0gt)
  · rfl

/-- Witness for C7 (amended) at the V3 canonical hex-ring parameters
(`radius = 6`, `thickness = 0.35`, `height = 0.025`). -/
theorem c7_amended_witness :
    (0 : ℝ) < 6 ∧ (0 : ℝ) < 35/100 ∧ (0 : ℝ) < 1/40 ∧
      (carveRegion 6 (35/100) (1/40)).Nonempty ∧
      (V3.create_hex_ring realTrig 6 (35/100) (1/40)).length = 4 :=
  ⟨by norm_num, by norm_num, by norm_num,
    (c7_amended 6 (35/100) (1/40)).1 (by norm_num) (by norm_num) (by norm_num),
    (c7_amended 6 (35/100) (1/40)).2⟩

/-! ### Claim C10: the edge-spike inward pull -/

/-- Geometry of the pull `p ↦ p·(d - 0.3)/d`: with `d² = x² + y² = q`
and `(0.3)² < q ≤ 7²`, the pulled point has planar norm `d - 0.3`, that
norm is less than 7, and the scaling factor is positive. -/
theorem pull_planar (x y q : ℝ) (hq : x ^ 2 + y ^ 2 = q)
    (hlo : (3/10) ^ 2 < q) (hhi : q ≤ 7 ^ 2) :
    planarNorm (x * (Real.sqrt (x * x + y * y) - 3/10) / Real.sqrt (x * x + y * y),
        y * (Real.sqrt (x * x + y * y) - 3/10) / Real.sqrt (x * x + y * y)) =
      planarNorm (x, y) - 3/10 ∧
    planarNorm (x, y) - 3/10 < 7 ∧
    0 < (Real.sqrt (x * x + y * y) - 3/10) / Real.sqrt (x * x + y * y) := by
  have hxy : x * x + y * y = q := by
    rw [← hq]
    ring
  have hq0 : (0 : ℝ) < q := lt_trans (by norm_num) hlo
  set d : ℝ := Real.sqrt (x * x + y * y) with hd
  have hdq : d = Real.sqrt q := by rw [hd, hxy]
  have hdpos : 0 < d := by
    rw [hdq]
    exact Real.sqrt_pos.mpr hq0
  have hd2 : d ^ 2 = q := by
    rw [hdq, Real.sq_sqrt hq0.le]
  have hdlo : 3/10 < d := by
    rw [hdq]
    exact (Real.lt_sqrt (by norm_num)).mpr hlo
  have hdhi : d ≤ 7 := by
    rw [hdq]
    calc Real.sqrt q ≤ Real.sqrt (7 ^ 2) := Real.sqrt_le_sqrt hhi
      _ = 7 := Real.sqrt_sq (by norm_num)
  have hpn : planarNorm (x, y) = d := by
    unfold planarNorm
    simp only
    rw [hq, hdq]
  have hsum : (x * (d - 3/10) / d) ^ 2 + (y * (d - 3/10) / d) ^ 2 = (d - 3/10) ^ 2 := by
    have hdne : d ≠ 0 := ne_of_gt hdpos
    have hfac : (x * (d - 3/10) / d) ^ 2 + (y * (d - 3/10) / d) ^ 2 =
        (x ^ 2 + y ^ 2) * ((d - 3/10) / d) ^ 2 := by
      ring
    rw [hfac, hq, ← hd2]
    field_simp
    ring
  refine ⟨?_, ?_, ?_⟩
  · unfold planarNorm
    simp only
    rw [hsum, Real.sqrt_sq (show (0 : ℝ) ≤ d - 3/10 by linarith), hq, ← hdq]
  · rw [hpn]
    linarith
  · exact div_pos (by linarith) hdpos

/-- The pulled spike position, written out through the real host. -/
theorem spikePos_eq (e i : ℕ) :
    spikePos realTrig 7 e i =
      ((spikeBase realTrig 7 e i).1 *
          (Real.sqrt ((spikeBase realTrig 7 e i).1 * (spikeBase realTrig 7 e i).1 +
            (spikeBase realTrig 7 e i).2 * (spikeBase realTrig 7 e i).2) - 3/10) /
          Real.sqrt ((spikeBase realTrig 7 e i).1 * (spikeBase realTrig 7 e i).1 +
            (spikeBase realTrig 7 e i).2 * (spikeBase realTrig 7 e i).2),
        (spikeBase realTrig 7 e i).2 *
          (Real.sqrt ((spikeBase realTrig 7 e i).1 * (spikeBase realTrig 7 e i).1 +
            (spikeBase realTrig 7 e i).2 * (spikeBase realTrig 7 e i).2) - 3/10) /
          Real.sqrt ((spikeBase realTrig 7 e i).1 * (spikeBase realTrig 7 e i).1 +
            (spikeBase realTrig 7 e i).2 * (spikeBase realTrig 7 e i).2)) := rfl

/-- One spike case of C10, given the raw point in the form
`(a·√3, b)` with `3a² + b² = q` and `0.09 < q ≤ 49`. -/
theorem spike_case (e i : ℕ) (a b q : ℝ)
    (hx : (spikeBase realTrig 7 e i).1 = a * Real.sqrt 3)
    (hy : (spikeBase realTrig 7 e i).2 = b)
    (hq : 3 * a ^ 2 + b ^ 2 = q)
    (hlo : (3/10) ^ 2 < q) (hhi : q ≤ 7 ^ 2) :
    planarNorm (spikePos realTrig 7 e i) =
      planarNorm (spikeBase realTrig 7 e i) - 3/10 ∧
    planarNorm (spikePos realTrig 7 e i) < 7 ∧
    ∃ c : ℝ, 0 < c ∧
      (spikePos realTrig 7 e i).1 = c * (spikeBase realTrig 7 e i).1 ∧
      (spikePos realTrig 7 e i).2 = c * (spikeBase realTrig 7 e i).2 := by
  have hq2 : (spikeBase realTrig 7 e i).1 ^ 2 + (spikeBase realTrig 7 e i).2 ^ 2 = q := by
    rw [hx, hy]
    have hs : Real.sqrt 3 ^ 2 = 3 := Real.sq_sqrt (by norm_num)
    linear_combination a ^ 2 * hs + hq
  have key := pull_planar (spikeBase realTrig 7 e i).1 (spikeBase realTrig 7 e i).2 q
    hq2 hlo hhi
  have hbase : planarNorm (spikeBase realTrig 7 e i) =
      planarNorm ((spikeBase realTrig 7 e i).1, (spikeBase realTrig 7 e i).2) := rfl
  refine ⟨?_, ?_, ?_⟩
  · rw [spikePos_eq, hbase]
    exact key.1
  · rw [spikePos_eq, hbase] at *
    rw [key.1]
    exact key.2.1
  · refine ⟨(Real.sqrt ((spikeBase realTrig 7 e i).1 * (spikeBase realTrig 7 e i).1 +
      (spikeBase realTrig 7 e i).2 * (spikeBase realTrig 7 e i).2) - 3/10) /
      Real.sqrt ((spikeBase realTrig 7 e i).1 * (spikeBase realTrig 7 e i).1 +
        (spikeBase realTrig 7 e i).2 * (spikeBase realTrig 7 e i).2), key.2.2, ?_, ?_⟩
    · rw [spikePos_eq]
      ring
    · rw [spikePos_eq]
      ring

set_option maxHeartbeats 2000000 in
/-- Claim C10: every V5 edge spike's final position is its raw
interpolated edge point pulled exactly `0.3` units toward the origin
along the radial direction — the pulled point is a positive multiple of
the raw point, its planar distance is the raw distance minus `0.3`, and
it lies strictly inside the platform circumradius 7. -/
theorem c10_spike_pull :
    ∀ e, e < 6 → ∀ i, i < 3 →
      planarNorm (spikePos realTrig 7 e i) =
        planarNorm (spikeBase realTrig 7 e i) - 3/10 ∧
      planarNorm (spikePos realTrig 7 e i) < 7 ∧
      ∃ c : ℝ, 0 < c ∧
        (spikePos realTrig 7 e i).1 = c * (spikeBase realTrig 7 e i).1 ∧
        (spikePos realTrig 7 e i).2 = c * (spikeBase realTrig 7 e i).2 := by
  intro e he i hi
  interval_cases e <;> interval_cases i
  · exact spike_case 0 0 (21/8) (35/8) (637/16)
      (by norm_num [spikeBase, spikeT, cosH0, cosH1, sinH0, sinH1] <;> ring)
      (by norm_num [spikeBase, spikeT, cosH0, cosH1, sinH0, sinH1] <;> ring)
      (by norm_num) (by norm_num) (by norm_num)
  · exact spike_case 0 1 (7/4) (21/4) (147/4)
      (by norm_num [spikeBase, spikeT, cosH0, cosH1, sinH0, sinH1] <;> ring)
      (by norm_num [spikeBase, spikeT, cosH0, cosH1, sinH0, sinH1] <;> ring)
      (by norm_num) (by norm_num) (by norm_num)
  · exact spike_case 0 2 (7/8) (49/8) (637/16)
      (by norm_num [spikeBase, spikeT, cosH0, cosH1, sinH0, sinH1] <;> ring)
      (by norm_num [spikeBase, spikeT, cosH0, cosH1, sinH0, sinH1] <;> ring)
      (by norm_num) (by norm_num) (by norm_num)
  · exact spike_case 1 0 (-(7/8)) (49/8) (637/16)
      (by norm_num [spikeBase, spikeT, cosH1, cosH2, sinH1, sinH2] <;> ring)
      (by norm_num [spikeBase, spikeT, cosH1, cosH2, sinH1, sinH2] <;> ring)
      (by norm_num) (by norm_num) (by norm_num)
  · exact spike_case 1 1 (-(7/4)) (21/4) (147/4)
      (by norm_num [spikeBase, spikeT, cosH1, cosH2, sinH1, sinH2] <;> ring)
      (by norm_num [spikeBase, spikeT, cosH1, cosH2, sinH1, sinH2] <;> ring)
      (by norm_num) (by norm_num) (by norm_num)
  · exact spike_case 1 2 (-(21/8)) (35/8) (637/16)
      (by norm_num [spikeBase, spikeT, cosH1, cosH2, sinH1, sinH2] <;> ring)
      (by norm_num [spikeBase, spikeT, cosH1, cosH2, sinH1, sinH2] <;> ring)
      (by norm_num) (by norm_num) (by norm_num)
  · exact spike_case 2 0 (-(7/2)) (7/4) (637/16)
      (by norm_num [spikeBase, spikeT, cosH2, cosH3, sinH2, sinH3] <;> ring)
      (by norm_num [spikeBase, spikeT, cosH2, cosH3, sinH2, sinH3] <;> ring)
      (by norm_num) (by norm_num) (by norm_num)
  · exact spike_case 2 1 (-(7/2)) 0 (147/4)
      (by norm_num [spikeBase, spikeT, cosH2, cosH3, sinH2, sinH3] <;> ring)
      (by norm_num [spikeBase, spikeT, cosH2, cosH3, sinH2, sinH3] <;> ring)
      (by norm_num) (by norm_num) (by norm_num)
  · exact spike_case 2 2 (-(7/2)) (-(7/4)) (637/16)
      (by norm_num [spikeBase, spikeT, cosH2, cosH3, sinH2, sinH3] <;> ring)
      (by norm_num [spikeBase, spikeT, cosH2, cosH3, sinH2, sinH3] <;> ring)
      (by norm_num) (by norm_num) (by norm_num)
  · exact spike_case 3 0 (-(21/8)) (-(35/8)) (637/16)
      (by norm_num [spikeBase, spikeT, cosH3, cosH4, sinH3, sinH4] <;> ring)
      (by norm_num [spikeBase, spikeT, cosH3, cosH4, sinH3, sinH4] <;> ring)
      (by norm_num) (by norm_num) (by norm_num)
  · exact spike_case 3 1 (-(7/4)) (-(21/4)) (147/4)
      (by norm_num [spikeBase, spikeT, cosH3, cosH4, sinH3, sinH4] <;> ring)
      (by norm_num [spikeBase, spikeT, cosH3, cosH4, sinH3, sinH4] <;> ring)
      (by norm_num) (by norm_num) (by norm_num)
  · exact spike_case 3 2 (-(7/8)) (-(49/8)) (637/16)
      (by norm_num [spikeBase, spikeT, cosH3, cosH4, sinH3, sinH4] <;> ring)
      (by norm_num [spikeBase, spikeT, cosH3, cosH4, sinH3, sinH4] <;> ring)
      (by norm_num) (by norm_num) (by norm_num)
  · exact spike_case 4 0 (7/8) (-(49/8)) (637/16)
      (by norm_num [spikeBase, spikeT, cosH4, cosH5, sinH4, sinH5] <;> ring)
      (by norm_num [spikeBase, spikeT, cosH4, cosH5, sinH4, sinH5] <;> ring)
      (by norm_num) (by norm_num) (by norm_num)
  · exact spike_case 4 1 (7/4) (-(21/4)) (147/4)
      (by norm_num [spikeBase, spikeT, cosH4, cosH5, sinH4, sinH5] <;> ring)
      (by norm_num [spikeBase, spikeT, cosH4, cosH5, sinH4, sinH5] <;> ring)
      (by norm_num) (by norm_num) (by norm_num)
  · exact spike_case 4 2 (21/8) (-(35/8)) (637/16)
      (by norm_num [spikeBase, spikeT, cosH4, cosH5, sinH4, sinH5] <;> ring)
      (by norm_num [spikeBase, spikeT, cosH4, cosH5, sinH4, sinH5] <;> ring)
      (by norm_num) (by norm_num) (by norm_num)
  · exact spike_case 5 0 (7/2) (-(7/4)) (637/16)
      (by norm_num [spikeBase, spikeT, cosH5, cosH6, sinH5, sinH6] <;> ring)
      (by norm_num [spikeBase, spikeT, cosH5, cosH6, sinH5, sinH6] <;> ring)
      (by norm_num) (by norm_num) (by norm_num)
  · exact spike_case 5 1 (7/2) 0 (147/4)
      (by norm_num [spikeBase, spikeT, cosH5, cosH6, sinH5, sinH6] <;> ring)
      (by norm_num [spikeBase, spikeT, cosH5, cosH6, sinH5, sinH6] <;> ring)
      (by norm_num) (by norm_num) (by norm_num)
  · exact spike_case 5 2 (7/2) (7/4) (637/16)
      (by norm_num [spikeBase, spikeT, cosH5, cosH6, sinH5, sinH6] <;> ring)
      (by norm_num [spikeBase, spikeT, cosH5, cosH6, sinH5, sinH6] <;> ring)
      (by norm_num) (by norm_num) (by norm_num)

/-- Witness for C10: the first spike of the first edge. -/
theorem c10_spike_pull_witness :
    (0 : ℕ) < 6 ∧ (0 : ℕ) < 3 ∧
      (planarNorm (spikePos realTrig 7 0 0) =
          planarNorm (spikeBase realTrig 7 0 0) - 3/10 ∧
        planarNorm (spikePos realTrig 7 0 0) < 7 ∧
        ∃ c : ℝ, 0 < c ∧
          (spikePos realTrig 7 0 0).1 = c * (spikeBase realTrig 7 0 0).1 ∧
          (spikePos realTrig 7 0 0).2 = c * (spikeBase realTrig 7 0 0).2) :=
  ⟨by norm_num, by norm_num, c10_spike_pull 0 (by norm_num) 0 (by norm_num)⟩

end BossPlatform
